import Mathlib

/-!
Verification of the Centipede process-execution and resource-monitoring core
(`command.h`, rusage profiler) against its natural-language specification.

The `Command` constructor, move constructor, deleted copy operations and field
initializers are fully visible in `src/command.h` and are embedded from that
source.  The bodies of `Command::ToString`, `Command::Execute`,
`Command::StartForkServer`, `Command::~Command` and the whole `RUsageProfiler`
implementation live in translation units that are not part of the sources at
hand; those operations are modelled from the specification, as marked in the
doc comment of each such definition.
-/

namespace Centipede

/-- Separator between the env entries, the path and the args of the rendered
command string. -/
def spaceSep : String := " "

/-- Separator introducing the stdout redirection clause. -/
def redirOutSep : String := " > "

/-- Separator introducing the stderr redirection clause. -/
def redirErrSep : String := " 2>& "

/-- The empty string, used for absent redirection targets. -/
def noRedir : String := ""

/-- Space-joined rendering of env entries, then the path, then the args. -/
def baseString (path : String) (args env : List String) : String :=
  String.intercalate spaceSep (env ++ path :: args)

/-- Modelled from the spec: `Command::ToString` (its body is in `command.cc`,
not among the sources at hand; `src/command.h` lines 63-65 only document the
format).  Renders `"ENV1=VAL1 ENV2=VAL2 path arg1 arg2 [> out] [2>& err]"`:
env entries, the path and the args separated by single spaces, then a
`> out` clause when `out` is non-empty, then a `2>& err` clause when `err` is
non-empty and differs from `out`; when `out == err` and both are non-empty the
two streams share the single redirection clause. -/
def commandToString (path : String) (args env : List String)
    (out err : String) : String :=
  let base := baseString path args env
  let withOut := if out = noRedir then base else base ++ redirOutSep ++ out
  if err = noRedir ∨ err = out then withOut else withOut ++ redirErrSep ++ err

/-- Embedding of `centipede::Command` (src/command.h lines 24-90): the five
constructor-supplied fields, the cached `full_command_string_`, the two fork
server fifo paths and the two pipe file descriptors. -/
structure Command where
  path : String
  args : List String
  env : List String
  out : String
  err : String
  fullCommandString : String
  fifoPath : String × String
  pipe : Int × Int
deriving DecidableEq

/-- Embedding of the `Command` constructor (src/command.h lines 55-58): it
stores the five inputs verbatim and performs no validation; the in-class
initializers (lines 86-89) cache `full_command_string_ = ToString()`, leave
the fifo paths default-constructed (empty) and set both pipe descriptors to
the `-1` sentinel. -/
def mkCommand (path : String) (args env : List String)
    (out err : String) : Command :=
  { path := path
  , args := args
  , env := env
  , out := out
  , err := err
  , fullCommandString := commandToString path args env out err
  , fifoPath := (noRedir, noRedir)
  , pipe := (-1, -1) }

/-- Embedding of the move constructor (src/command.h lines 33-46): the target
(first component) takes every field of the source, and the moved-from source
(second component) has both pipe descriptors reset to `-1` so that its
destructor will not close them. -/
def moveCommand (c : Command) : Command × Command :=
  (c, { c with pipe := (-1, -1) })

/-- Modelled from the spec: an env entry is well-formed when it has the
`KEY=VALUE` form, i.e. contains a `=` separator. -/
def envEntryWellFormed (s : String) : Bool :=
  s.data.any (fun c => c == Char.ofNat 61)

/-- Modelled from the spec: the constructor the specification describes, which
validates the env entries at construction time and fails (returns `none`)
when any entry is malformed.  This definition follows the specification text
and exists to be compared with `mkCommand`, the constructor the source
actually defines. -/
def mkCommandValidated (path : String) (args env : List String)
    (out err : String) : Option Command :=
  if env.all envEntryWellFormed then some (mkCommand path args env out err)
  else none

/-- Modelled from the spec: the destructor (declared at src/command.h line 61,
body elsewhere) closes a pipe descriptor only when it is not the `-1` "not
open" sentinel; this returns the list of descriptors it closes. -/
def destructorCloses (c : Command) : List Int :=
  (if c.pipe.1 = -1 then [] else [c.pipe.1]) ++
  (if c.pipe.2 = -1 then [] else [c.pipe.2])

/-- Modelled from the spec: the destructor removes the named-pipe files only
when a fork server is active for the instance (its descriptors are not the
sentinel); this returns the list of fifo paths it removes. -/
def destructorRemoves (c : Command) : List String :=
  if c.pipe.1 = -1 ∧ c.pipe.2 = -1 then []
  else [c.fifoPath.1, c.fifoPath.2]

/-- A fork server is active for the instance when its pipe descriptors are not
the `-1` sentinel. -/
def forkServerActive (c : Command) : Bool :=
  c.pipe.1 != -1 && c.pipe.2 != -1

/-- The shared engine state holding the cooperative cancellation flag queried
by the surrounding campaign loop. -/
structure EngineState where
  earlyExitRequested : Bool
deriving DecidableEq

/-- Sets the shared "early exit requested" cancellation flag (the
`RequestEarlyExit()` call mentioned at src/command.h line 68). -/
def RequestEarlyExit (_st : EngineState) : EngineState :=
  { earlyExitRequested := true }

/-- The externally determined circumstances of one `Execute` call: whether an
interrupt signal arrived while waiting, whether a fork-server pipe I/O error
occurred, the child's exit status, the status used when the wait was
interrupted, and the sentinel failure status for a dead fork server. -/
structure ExecEnv where
  interrupted : Bool
  pipeError : Bool
  childStatus : Int
  interruptStatus : Int
  sentinelFailure : Int
deriving DecidableEq

/-- Modelled from the spec: `Command::Execute` (declared at src/command.h
lines 66-69, body elsewhere).  When the wait is interrupted by a signal it
calls `RequestEarlyExit` and returns the interruption status instead of
raising a failure; otherwise, with an active fork server it returns the
status read from the response pipe, except that a pipe I/O error yields the
sentinel failure status and disables the fork-server path for later calls;
without an active fork server it spawns a fresh process directly. -/
def execute (c : Command) (ev : ExecEnv) (st : EngineState) :
    Int × Command × EngineState :=
  if ev.interrupted then (ev.interruptStatus, c, RequestEarlyExit st)
  else if forkServerActive c then
    if ev.pipeError then (ev.sentinelFailure, { c with pipe := (-1, -1) }, st)
    else (ev.childStatus, c, st)
  else (ev.childStatus, c, st)

/-- Whether the target binary supports the fork-server protocol and whether
the handshake completed before the timeout — the two externally determined
conditions for fork-server establishment. -/
structure ForkServerOutcome where
  supportsProtocol : Bool
  handshakeCompletes : Bool
deriving DecidableEq

/-- Path separator used when placing the fifo files in the temp directory. -/
def dirSep : String := "/"

/-- Role suffix of the request fifo. -/
def fifoSuffix0 : String := "_0"

/-- Role suffix of the response fifo. -/
def fifoSuffix1 : String := "_1"

/-- Modelled from the spec: `Command::StartForkServer` (declared at
src/command.h lines 71-75, body elsewhere).  It creates the two fifos in
`tempDirPath` named deterministically from `pfx` plus a role suffix, and
succeeds exactly when the target supports the protocol and the handshake
completes in time; on success the instance records the fifo paths and the two
open pipe descriptors, on failure the instance is left unchanged. -/
def startForkServer (c : Command) (tempDirPath pfx : String)
    (oc : ForkServerOutcome) (fds : Int × Int) : Bool × Command :=
  if oc.supportsProtocol && oc.handshakeCompletes then
    (true,
     { c with
       fifoPath := (tempDirPath ++ dirSep ++ pfx ++ fifoSuffix0,
                    tempDirPath ++ dirSep ++ pfx ++ fifoSuffix1)
     , pipe := fds })
  else (false, c)

/-- Embedding of `RUsageTiming` (fields as used by rusage_profiler_test.cc):
wall, user and system time relative to a reference start instant, plus the
CPU utilization ratio and the hyper-core-equivalent count.  Times and ratios
are modelled as rationals. -/
structure RUsageTiming where
  wall_time : ℚ
  user_time : ℚ
  sys_time : ℚ
  cpu_utilization : ℚ
  cpu_hyper_cores : ℚ
deriving DecidableEq

/-- Embedding of `RUsageMemory` (fields as used by rusage_profiler_test.cc):
virtual size, virtual peak, resident set size and data-segment size, in
bytes. -/
structure RUsageMemory where
  mem_vsize : ℤ
  mem_vpeak : ℤ
  mem_rss : ℤ
  mem_data : ℤ
deriving DecidableEq

/-- Modelled from the spec: CPU utilization is (user + system) / wall. -/
def utilizationOf (user sys wall : ℚ) : ℚ :=
  (user + sys) / wall

/-- Modelled from the spec: the timing difference operation (the test's
`RUsageTiming::operator-`).  The three time fields are subtracted, while the
utilization and hyper-core fields are recomputed from the differenced time
fields rather than subtracted directly. -/
def timingSub (a b : RUsageTiming) : RUsageTiming :=
  { wall_time := a.wall_time - b.wall_time
  , user_time := a.user_time - b.user_time
  , sys_time := a.sys_time - b.sys_time
  , cpu_utilization :=
      utilizationOf (a.user_time - b.user_time) (a.sys_time - b.sys_time)
        (a.wall_time - b.wall_time)
  , cpu_hyper_cores :=
      utilizationOf (a.user_time - b.user_time) (a.sys_time - b.sys_time)
        (a.wall_time - b.wall_time) }

/-- Modelled from the spec: the memory difference operation (the test's
`RUsageMemory::operator-`), the component-wise arithmetic difference. -/
def memorySub (a b : RUsageMemory) : RUsageMemory :=
  { mem_vsize := a.mem_vsize - b.mem_vsize
  , mem_vpeak := a.mem_vpeak - b.mem_vpeak
  , mem_rss := a.mem_rss - b.mem_rss
  , mem_data := a.mem_data - b.mem_data }

/-- The zero timing delta carried by a profiler's first snapshot. -/
def zeroTiming : RUsageTiming :=
  { wall_time := 0, user_time := 0, sys_time := 0
  , cpu_utilization := 0, cpu_hyper_cores := 0 }

/-- The zero memory delta carried by a profiler's first snapshot. -/
def zeroMemory : RUsageMemory :=
  { mem_vsize := 0, mem_vpeak := 0, mem_rss := 0, mem_data := 0 }

/-- Embedding of `RUsageProfiler::Snapshot`: a label, the capture timestamp,
the captured timing and memory samples, and the delta pair computed against
the immediately preceding snapshot of the same profiler. -/
structure ProfSnapshot where
  label : String
  time : ℚ
  timing : RUsageTiming
  memory : RUsageMemory
  delta_timing : RUsageTiming
  delta_memory : RUsageMemory
deriving DecidableEq

/-- The externally captured data of one snapshot: its label, capture time and
the OS-reported timing and memory samples at that instant. -/
structure SnapInput where
  label : String
  time : ℚ
  timing : RUsageTiming
  memory : RUsageMemory
deriving DecidableEq

/-- Builds the snapshot for capture data `i` given the previous snapshot of
the sequence (`none` for the first snapshot, whose delta is the zero
delta). -/
def mkSnap (prev : Option ProfSnapshot) (i : SnapInput) : ProfSnapshot :=
  match prev with
  | none =>
      { label := i.label, time := i.time, timing := i.timing
      , memory := i.memory
      , delta_timing := zeroTiming, delta_memory := zeroMemory }
  | some q =>
      { label := i.label, time := i.time, timing := i.timing
      , memory := i.memory
      , delta_timing := timingSub i.timing q.timing
      , delta_memory := memorySub i.memory q.memory }

/-- The profiler's sampling state: `idle`, or `sampling` while a timelapse is
running. -/
inductive PMode where
  | idle : PMode
  | sampling : PMode
deriving DecidableEq

/-- Embedding of `RUsageProfiler`: the ordered, append-only snapshot sequence
it owns, and its sampling state. -/
structure RUsageProfiler where
  snapshots : List ProfSnapshot
  mode : PMode
deriving DecidableEq

/-- A profiler with no snapshots yet, not sampling. -/
def initProfiler : RUsageProfiler :=
  { snapshots := [], mode := PMode.idle }

/-- Modelled from the spec: `RUsageProfiler::TakeSnapshot` captures the
metrics, computes the delta against the previous snapshot of this instance's
sequence (the zero delta when it is the first), and appends the new
snapshot.  It does not change the sampling state. -/
def takeSnapshot (p : RUsageProfiler) (i : SnapInput) : RUsageProfiler :=
  { p with snapshots := p.snapshots ++ [mkSnap p.snapshots.getLast? i] }

/-- Runs a sequence of manual snapshot captures on a fresh profiler. -/
def runSnapshots (inputs : List SnapInput) : RUsageProfiler :=
  inputs.foldl takeSnapshot initProfiler

/-- The events that can act on a profiler: starting a timelapse, stopping it
(`StopTimelapse` blocks until the periodic activity has quiesced, so once it
returns the profiler is no longer sampling), a tick of the periodic
background activity, and a manual `TakeSnapshot` call. -/
inductive PEvent where
  | startTimelapse : PEvent
  | stopTimelapse : PEvent
  | timelapseTick : SnapInput → PEvent
  | manualSnapshot : SnapInput → PEvent
deriving DecidableEq

/-- Modelled from the spec: the profiler state machine.  `StartTimelapse`
moves to `sampling`, `StopTimelapse` joins the background activity and moves
to `idle`; a periodic tick appends a snapshot only while the profiler is
sampling (after `StopTimelapse` has returned, the background activity is
gone, so a tick appends nothing); a manual snapshot is valid in either state
and does not change it. -/
def stepEvent (p : RUsageProfiler) : PEvent → RUsageProfiler
  | PEvent.startTimelapse => { p with mode := PMode.sampling }
  | PEvent.stopTimelapse => { p with mode := PMode.idle }
  | PEvent.timelapseTick i =>
      if p.mode = PMode.sampling then takeSnapshot p i else p
  | PEvent.manualSnapshot i => takeSnapshot p i

/-- Runs a list of events on a profiler, in order. -/
def runEvents (p : RUsageProfiler) (es : List PEvent) : RUsageProfiler :=
  es.foldl stepEvent p

/-- Whether an event is a tick of the periodic background activity. -/
def isTick : PEvent → Bool
  | PEvent.timelapseTick _ => true
  | _ => false

/-! Concrete values used by witnesses and counterexamples. -/

/-- Concrete binary path, the spec's example. -/
def wPath : String := "/bin/echo"

/-- Concrete argument, the spec's example. -/
def wArg : String := "hi"

/-- Concrete well-formed env entry, the spec's example. -/
def wEnvEntry : String := "A=1"

/-- Concrete shared redirection target, the spec's example. -/
def wLog : String := "log.txt"

/-- The rendering the spec's example must produce. -/
def wRendered : String := "A=1 /bin/echo hi > log.txt"

/-- An env entry without the `KEY=VALUE` form. -/
def badEnvEntry : String := "MALFORMED"

/-- Concrete timing sample for the first witness snapshot. -/
def wTiming0 : RUsageTiming :=
  { wall_time := 1, user_time := 0, sys_time := 0
  , cpu_utilization := 0, cpu_hyper_cores := 0 }

/-- Concrete timing sample for the second witness snapshot. -/
def wTiming1 : RUsageTiming :=
  { wall_time := 3, user_time := 1, sys_time := 1
  , cpu_utilization := 1, cpu_hyper_cores := 1 }

/-- Concrete memory sample for the first witness snapshot. -/
def wMem0 : RUsageMemory :=
  { mem_vsize := 100, mem_vpeak := 100, mem_rss := 50, mem_data := 10 }

/-- Concrete memory sample for the second witness snapshot. -/
def wMem1 : RUsageMemory :=
  { mem_vsize := 300, mem_vpeak := 400, mem_rss := 80, mem_data := 20 }

/-- Label of the first witness snapshot. -/
def wLabel0 : String := "s0"

/-- Label of the second witness snapshot. -/
def wLabel1 : String := "s1"

/-- First witness capture. -/
def wInput0 : SnapInput :=
  { label := wLabel0, time := 0, timing := wTiming0, memory := wMem0 }

/-- Second witness capture. -/
def wInput1 : SnapInput :=
  { label := wLabel1, time := 1, timing := wTiming1, memory := wMem1 }

/-- The witness capture sequence. -/
def wInputs : List SnapInput := [wInput0, wInput1]

/-- The first snapshot the witness profiler records. -/
def wSnapA : ProfSnapshot := mkSnap none wInput0

/-- The second snapshot the witness profiler records. -/
def wSnapB : ProfSnapshot := mkSnap (some wSnapA) wInput1

/-- Capture data of the witness timelapse tick. -/
def wTickInput : SnapInput :=
  { label := wLabel1, time := 2, timing := wTiming1, memory := wMem1 }

/-- A tick event of the periodic background activity. -/
def wTick : PEvent := PEvent.timelapseTick wTickInput

/-- A profiler that is sampling and already holds one snapshot. -/
def wProfiler : RUsageProfiler :=
  { snapshots := [wSnapA], mode := PMode.sampling }

/-- A fork-server outcome where the target does not support the protocol. -/
def wOutcomeFail : ForkServerOutcome :=
  { supportsProtocol := false, handshakeCompletes := true }

/-- Concrete pipe descriptors for the witness. -/
def wFds : Int × Int := (5, 6)

/-- Concrete temp directory for the witness. -/
def wTd : String := "/tmp"

/-- Concrete fifo name stem for the witness. -/
def wPfx : String := "fs"

/-- Concrete uninterrupted execution circumstances for the witness. -/
def wEv : ExecEnv :=
  { interrupted := false, pipeError := false, childStatus := 0
  , interruptStatus := 1, sentinelFailure := 2 }

/-- Concrete engine state for the witness. -/
def wSt : EngineState := { earlyExitRequested := false }

/-! Helper lemmas for the snapshot delta invariant. -/

/-- The delta of snapshot `b` was computed against snapshot `a`: the timing
delta is the timing difference and the memory delta is the memory
difference. -/
def deltaRel (a b : ProfSnapshot) : Prop :=
  b.delta_timing = timingSub b.timing a.timing ∧
  b.delta_memory = memorySub b.memory a.memory

/-- Invariant of a snapshot sequence: the first snapshot carries the zero
delta and every later snapshot's delta was computed against its immediate
predecessor. -/
def deltaChainOk (l : List ProfSnapshot) : Prop :=
  (∀ s ∈ l.head?, s.delta_timing = zeroTiming ∧ s.delta_memory = zeroMemory) ∧
  List.Chain' deltaRel l

/-- Appending the snapshot built from the sequence's last element preserves
the delta-chain invariant. -/
theorem deltaChainOk_append (l : List ProfSnapshot) (i : SnapInput)
    (h : deltaChainOk l) : deltaChainOk (l ++ [mkSnap l.getLast? i]) := by
  obtain ⟨h0, hc⟩ := h
  constructor
  · cases l with
    | nil =>
        intro s hs
        rw [Option.mem_def] at hs
        injection hs with hs
        subst hs
        exact ⟨rfl, rfl⟩
    | cons x xs =>
        intro s hs
        rw [Option.mem_def] at hs
        have hx : ((x :: xs) ++
            [mkSnap (x :: xs).getLast? i]).head? = some x := rfl
        rw [hx] at hs
        injection hs with hs
        subst hs
        exact h0 _ rfl
  · apply List.Chain'.append hc (List.chain'_singleton _)
    intro x hx y hy
    rw [Option.mem_def] at hx hy
    injection hy with hy
    subst hy
    rw [hx]
    exact ⟨rfl, rfl⟩

/-- Folding manual snapshot captures over a profiler preserves the
delta-chain invariant. -/
theorem deltaChainOk_foldl (inputs : List SnapInput) :
    ∀ p : RUsageProfiler, deltaChainOk p.snapshots →
      deltaChainOk (inputs.foldl takeSnapshot p).snapshots := by
  induction inputs with
  | nil =>
      intro p hp
      exact hp
  | cons i rest ih =>
      intro p hp
      simp only [List.foldl_cons]
      exact ih _ (deltaChainOk_append p.snapshots i hp)

/-- Every profiler built from manual snapshot captures satisfies the
delta-chain invariant. -/
theorem deltaChainOk_runSnapshots (inputs : List SnapInput) :
    deltaChainOk (runSnapshots inputs).snapshots := by
  apply deltaChainOk_foldl
  constructor
  · intro s hs
    rw [Option.mem_def] at hs
    exact absurd hs (by simp [initProfiler])
  · exact List.chain'_nil

/-- After `StopTimelapse` has returned, a profiler is idle, and running any
sequence of background ticks on an idle profiler changes nothing. -/
theorem runEvents_ticks_idle (es : List PEvent) :
    ∀ q : RUsageProfiler, q.mode = PMode.idle →
      (∀ e ∈ es, isTick e = true) → runEvents q es = q := by
  induction es with
  | nil =>
      intro q _ _
      rfl
  | cons e rest ih =>
      intro q hq he
      have ht : isTick e = true := he e (by simp)
      cases e with
      | startTimelapse => simp [isTick] at ht
      | stopTimelapse => simp [isTick] at ht
      | manualSnapshot i => simp [isTick] at ht
      | timelapseTick i =>
          have hstep : stepEvent q (PEvent.timelapseTick i) = q := by
            simp [stepEvent, hq]
          simp only [runEvents, List.foldl_cons, hstep]
          exact ih q hq (fun x hx => he x (by simp [hx]))

/-! The remaining claim theorems. -/

/-- C4: for every profiler built from a sequence of snapshot captures, the
first snapshot's delta is the zero delta, and every snapshot at position
`n + 1` has its timing delta equal to the timing difference and its memory
delta equal to the component-wise memory difference against the snapshot at
position `n` — the immediate predecessor only.  The timing difference
recomputes the utilization and hyper-core fields from the differenced time
fields. -/
theorem delta_invariant (inputs : List SnapInput) :
    (∀ s, (runSnapshots inputs).snapshots[0]? = some s →
       s.delta_timing = zeroTiming ∧ s.delta_memory = zeroMemory) ∧
    (∀ n a b, (runSnapshots inputs).snapshots[n]? = some a →
       (runSnapshots inputs).snapshots[n + 1]? = some b →
       b.delta_timing = timingSub b.timing a.timing ∧
       b.delta_memory = memorySub b.memory a.memory) := by
  obtain ⟨h0, hc⟩ := deltaChainOk_runSnapshots inputs
  constructor
  · intro s hs
    apply h0
    rw [Option.mem_def, List.head?_eq_getElem?]
    exact hs
  · intro n a b ha hb
    have hn1 : n + 1 < (runSnapshots inputs).snapshots.length :=
      (List.getElem?_eq_some.mp hb).1
    have hn : n < (runSnapshots inputs).snapshots.length :=
      Nat.lt_of_succ_lt hn1
    have hga : (runSnapshots inputs).snapshots[n] = a := by
      rw [List.getElem?_eq_getElem hn] at ha
      exact Option.some.inj ha
    have hgb : (runSnapshots inputs).snapshots[n + 1] = b := by
      rw [List.getElem?_eq_getElem hn1] at hb
      exact Option.some.inj hb
    have hrel := List.chain'_iff_get.mp hc n (by omega)
    rw [List.get_eq_getElem, List.get_eq_getElem, hga, hgb] at hrel
    exact hrel

/-- Witness for C4: a two-capture profiler whose first snapshot carries the
zero delta and whose second snapshot's delta is the difference against the
first. -/
theorem delta_invariant_witness :
    ((runSnapshots wInputs).snapshots[0]? = some wSnapA) ∧
    ((runSnapshots wInputs).snapshots[0 + 1]? = some wSnapB) ∧
    (wSnapA.delta_timing = zeroTiming ∧ wSnapA.delta_memory = zeroMemory) ∧
    (wSnapB.delta_timing = timingSub wSnapB.timing wSnapA.timing ∧
     wSnapB.delta_memory = memorySub wSnapB.memory wSnapA.memory) :=
  ⟨rfl, rfl,
   (delta_invariant wInputs).1 wSnapA rfl,
   (delta_invariant wInputs).2 0 wSnapA wSnapB rfl rfl⟩

/-- C7: `StopTimelapse` is a hard boundary — once it has returned the
profiler is idle, and for every subsequent sequence of background-tick
events (no new timelapse started, no manual snapshot taken) the snapshot
sequence observed at the moment of return is unchanged. -/
theorem stopTimelapse_hard_boundary (p : RUsageProfiler) (es : List PEvent)
    (h : ∀ e ∈ es, isTick e = true) :
    (stepEvent p PEvent.stopTimelapse).mode = PMode.idle ∧
    (runEvents (stepEvent p PEvent.stopTimelapse) es).snapshots =
      (stepEvent p PEvent.stopTimelapse).snapshots := by
  refine ⟨rfl, ?_⟩
  rw [runEvents_ticks_idle es (stepEvent p PEvent.stopTimelapse) rfl h]

/-- Witness for C7: stopping a sampling profiler holding one snapshot and
then delivering two background ticks leaves the snapshot sequence exactly as
it was when `StopTimelapse` returned. -/
theorem stopTimelapse_hard_boundary_witness :
    (runEvents (stepEvent wProfiler PEvent.stopTimelapse)
        [wTick, wTick]).snapshots =
      (stepEvent wProfiler PEvent.stopTimelapse).snapshots :=
  (stopTimelapse_hard_boundary wProfiler [wTick, wTick] (by decide)).2

/-! Theorems settling the claims. -/

/-- C1: for every Command constructed from path, args, env, out and err,
`ToString` renders exactly the env entries, the path and the args separated
by single spaces, a `> out` clause only when `out` is non-empty, a `2>& err`
clause only when `err` is non-empty and differs from `out`, and a single
combined redirection when `out == err` and both are non-empty; the cached
string is a pure function of the five constructor inputs. -/
theorem toString_renders_spec (path out err : String) (args env : List String) :
    (mkCommand path args env out err).fullCommandString =
      commandToString path args env out err ∧
    (out = noRedir → err = noRedir →
      commandToString path args env out err = baseString path args env) ∧
    (out ≠ noRedir → err = noRedir →
      commandToString path args env out err =
        baseString path args env ++ redirOutSep ++ out) ∧
    (out = noRedir → err ≠ noRedir →
      commandToString path args env out err =
        baseString path args env ++ redirErrSep ++ err) ∧
    (out ≠ noRedir → err ≠ noRedir → err ≠ out →
      commandToString path args env out err =
        baseString path args env ++ redirOutSep ++ out ++ redirErrSep ++ err) ∧
    (out ≠ noRedir → err = out →
      commandToString path args env out err =
        baseString path args env ++ redirOutSep ++ out) := by
  refine ⟨rfl, ?_, ?_, ?_, ?_, ?_⟩
  · intro h1 h2
    simp [commandToString, h1, h2]
  · intro h1 h2
    simp [commandToString, h1, h2]
  · intro h1 h2
    subst h1
    simp [commandToString, h2]
  · intro h1 h2 h3
    simp [commandToString, h1, h2, h3]
  · intro h1 h2
    subst h2
    simp [commandToString, h1]

/-- Witness for C1 at the spec's example: `out = err = "log.txt"` yields the
single combined redirection `"A=1 /bin/echo hi > log.txt"`. -/
theorem toString_renders_spec_witness :
    wLog ≠ noRedir ∧
    commandToString wPath [wArg] [wEnvEntry] wLog wLog =
      baseString wPath [wArg] [wEnvEntry] ++ redirOutSep ++ wLog ∧
    baseString wPath [wArg] [wEnvEntry] ++ redirOutSep ++ wLog = wRendered :=
  ⟨by decide,
   (toString_renders_spec wPath wLog wLog [wArg] [wEnvEntry]).2.2.2.2.2
     (by decide) rfl,
   by decide⟩

/-- C2 counterexample: the constructor defined at src/command.h lines 55-58
performs no validation — constructing with the malformed env entry
`"MALFORMED"` (not of the `KEY=VALUE` form) succeeds and stores the entry
verbatim, whereas the validating constructor the spec describes rejects it. -/
theorem constructor_skips_validation :
    envEntryWellFormed badEnvEntry = false ∧
    (mkCommand wPath [] [badEnvEntry] noRedir noRedir).env = [badEnvEntry] ∧
    mkCommandValidated wPath [] [badEnvEntry] noRedir noRedir = none := by
  refine ⟨by decide, rfl, by decide⟩

/-- C2 (amended): the constructor performs no validation at construction
time; for every input, well-formed or not, construction succeeds and stores
the five inputs verbatim. -/
theorem constructor_accepts_all_inputs (path out err : String)
    (args env : List String) :
    (mkCommand path args env out err).path = path ∧
    (mkCommand path args env out err).args = args ∧
    (mkCommand path args env out err).env = env ∧
    (mkCommand path args env out err).out = out ∧
    (mkCommand path args env out err).err = err :=
  ⟨rfl, rfl, rfl, rfl, rfl⟩

/-- C3: moving a Command transfers pipe ownership exactly once — the target
holds every field of the source (pipe descriptors and fifo paths included),
the moved-from source has both pipe descriptors reset to the `-1` sentinel,
destroying the moved-from source closes no descriptor and removes no pipe
file, and destroying the target performs exactly the cleanup the source
would have performed. -/
theorem move_transfers_pipe_ownership (a : Command) :
    (moveCommand a).1 = a ∧
    (moveCommand a).2.pipe = (-1, -1) ∧
    destructorCloses (moveCommand a).2 = [] ∧
    destructorRemoves (moveCommand a).2 = [] ∧
    destructorCloses (moveCommand a).1 = destructorCloses a ∧
    destructorRemoves (moveCommand a).1 = destructorRemoves a := by
  refine ⟨rfl, rfl, ?_, ?_, rfl, rfl⟩ <;>
    simp [destructorCloses, destructorRemoves, moveCommand]

/-- C5: when an interrupt signal arrives while `Execute` is waiting, the call
returns normally (no exception-style failure) with the designated
interruption status, and it sets the shared "early exit requested"
cancellation flag that the surrounding engine polls. -/
theorem execute_interrupt_sets_early_exit (c : Command) (st : EngineState)
    (pe : Bool) (cs istat sf : Int) :
    (execute c ⟨true, pe, cs, istat, sf⟩ st).1 = istat ∧
    (execute c ⟨true, pe, cs, istat, sf⟩ st).2.1 = c ∧
    (execute c ⟨true, pe, cs, istat, sf⟩ st).2.2 = RequestEarlyExit st ∧
    (execute c ⟨true, pe, cs, istat, sf⟩ st).2.2.earlyExitRequested = true :=
  ⟨rfl, rfl, rfl, rfl⟩

/-- C6: `StartForkServer` returns true exactly when the target supports the
protocol and the handshake completes; a false return leaves the instance
unchanged, so every subsequent `Execute` call behaves identically to
`Execute` on a Command that never attempted a fork server. -/
theorem startForkServer_establishes_or_falls_back
    (path out err td pfx : String) (args env : List String)
    (oc : ForkServerOutcome) (fds : Int × Int) (ev : ExecEnv)
    (st : EngineState) :
    ((startForkServer (mkCommand path args env out err) td pfx oc fds).1 =
        true ↔
      oc.supportsProtocol = true ∧ oc.handshakeCompletes = true) ∧
    ((startForkServer (mkCommand path args env out err) td pfx oc fds).1 =
        false →
      (startForkServer (mkCommand path args env out err) td pfx oc fds).2 =
        mkCommand path args env out err ∧
      execute
          (startForkServer (mkCommand path args env out err) td pfx oc fds).2
          ev st =
        execute (mkCommand path args env out err) ev st) := by
  obtain ⟨sp, hc⟩ := oc
  cases sp <;> cases hc <;> simp [startForkServer]

/-- Witness for C6: with a target that does not support the protocol,
`StartForkServer` returns false, the instance is unchanged, and `Execute`
behaves exactly as on the instance that never attempted a fork server. -/
theorem startForkServer_fallback_witness :
    (startForkServer (mkCommand wPath [wArg] [wEnvEntry] noRedir noRedir)
        wTd wPfx wOutcomeFail wFds).1 = false ∧
    (startForkServer (mkCommand wPath [wArg] [wEnvEntry] noRedir noRedir)
        wTd wPfx wOutcomeFail wFds).2 =
      mkCommand wPath [wArg] [wEnvEntry] noRedir noRedir ∧
    execute
        (startForkServer (mkCommand wPath [wArg] [wEnvEntry] noRedir noRedir)
          wTd wPfx wOutcomeFail wFds).2 wEv wSt =
      execute (mkCommand wPath [wArg] [wEnvEntry] noRedir noRedir) wEv wSt :=
  ⟨rfl,
   ((startForkServer_establishes_or_falls_back wPath noRedir noRedir wTd wPfx
       [wArg] [wEnvEntry] wOutcomeFail wFds wEv wSt).2 rfl).1,
   ((startForkServer_establishes_or_falls_back wPath noRedir noRedir wTd wPfx
       [wArg] [wEnvEntry] wOutcomeFail wFds wEv wSt).2 rfl).2⟩

/-- C9: a freshly constructed Command that never started a fork server has
both pipe descriptors equal to the `-1` sentinel, so its destructor closes
no file descriptor and removes no pipe file. -/
theorem fresh_command_destructor_noop (path out err : String)
    (args env : List String) :
    (mkCommand path args env out err).pipe = (-1, -1) ∧
    destructorCloses (mkCommand path args env out err) = [] ∧
    destructorRemoves (mkCommand path args env out err) = [] := by
  refine ⟨rfl, ?_, ?_⟩ <;>
    simp [destructorCloses, destructorRemoves, mkCommand]

/-- C10: the five command-defining fields and the cached full command string
are fixed at construction — neither `Execute` (in any of its outcomes,
interrupt, fork-server path, pipe error or direct execution) nor
`StartForkServer` (success or failure) changes them, so `ToString`'s cached
rendering stays byte-for-byte identical for the whole lifetime of the
instance; only the fork-server fields can change. -/
theorem command_fields_frozen (c : Command) (ev : ExecEnv) (st : EngineState)
    (td pfx : String) (oc : ForkServerOutcome) (fds : Int × Int) :
    ((execute c ev st).2.1.path = c.path ∧
     (execute c ev st).2.1.args = c.args ∧
     (execute c ev st).2.1.env = c.env ∧
     (execute c ev st).2.1.out = c.out ∧
     (execute c ev st).2.1.err = c.err ∧
     (execute c ev st).2.1.fullCommandString = c.fullCommandString) ∧
    ((startForkServer c td pfx oc fds).2.path = c.path ∧
     (startForkServer c td pfx oc fds).2.args = c.args ∧
     (startForkServer c td pfx oc fds).2.env = c.env ∧
     (startForkServer c td pfx oc fds).2.out = c.out ∧
     (startForkServer c td pfx oc fds).2.err = c.err ∧
     (startForkServer c td pfx oc fds).2.fullCommandString =
       c.fullCommandString) := by
  constructor
  · simp only [execute]
    split
    · exact ⟨rfl, rfl, rfl, rfl, rfl, rfl⟩
    · split
      · split
        · exact ⟨rfl, rfl, rfl, rfl, rfl, rfl⟩
        · exact ⟨rfl, rfl, rfl, rfl, rfl, rfl⟩
      · exact ⟨rfl, rfl, rfl, rfl, rfl, rfl⟩
  · simp only [startForkServer]
    split
    · exact ⟨rfl, rfl, rfl, rfl, rfl, rfl⟩
    · exact ⟨rfl, rfl, rfl, rfl, rfl, rfl⟩

end Centipede
